import Mathlib

/-!
Verification development for the `researcher` repository.

The repository (src/src/create_report/main.py, src/src/create_report/crew.py,
src/api.py) is a four-stage report pipeline (research → analysis → generation
→ review) over an external chat-completion API, with a fallback report when
calls fail, plus an alternate crew-based variant and a FastAPI layer.

Shallow embedding conventions:
- Each outbound chat-completion call is modelled by an oracle
  `Env.oracle : Nat → CallResult` giving the outcome of the n-th call issued
  during a run; a call either returns content (`CallResult.ok`, whose payload
  is `Option String` because the API may return `None` content) or raises
  (`CallResult.err`).  A counter `n : Nat` of calls issued so far is threaded
  explicitly; every attempted call increments it, whether it succeeds or not.
- `datetime.now().strftime(...)` is modelled by the abstract string `Env.now`.
- The Python `config: Dict[str, Any]` is modelled by `Config` with `Option`
  fields for exactly the keys the code reads; `config[k]` on a missing key is
  a `KeyError`, `config.get(k, d)` is `Option.getD`.
- Fallible Python code returns `Except (PyErr × Nat) (α × Nat)`: an error
  carries the exception and the call counter at the moment it was raised, so
  that an `except` handler resumes from the right counter.
- Python truthiness on strings: `None` and `""` are falsy; `a or b` on an
  optional string is `pyOrElse`.
-/

namespace CreateReport

/-- Python exceptions that the embedded code can raise. -/
inductive PyErr where
  | keyError (key : String)
  | valueError
  | typeError
  deriving Repr, DecidableEq

/-- Outcome of one chat-completion call: returned content (possibly `None`),
or an exception raised by the client. -/
inductive CallResult where
  | ok (content : Option String)
  | err
  deriving Repr, DecidableEq

/-- External environment of one run: the oracle giving each call's outcome,
and the current timestamp string. -/
structure Env where
  oracle : Nat → CallResult
  now : String

/-- The `config` dictionary as read by `main.py`: each field is `some v` when
the corresponding key is present. -/
structure Config where
  topic : Option String
  report_type : Option String
  length : Option Nat
  include_charts : Option Bool
  include_sources : Option Bool

/-- Python `content or d` for an optional string `content`:
`None` and `""` are falsy. -/
def pyOrElse (content : Option String) (d : String) : String :=
  match content with
  | some s => if s = "" then d else s
  | none => d

/-- One `self.client.chat.completions.create(...)` call.  The prompts are the
messages actually sent; the outcome is the oracle's answer for the current
call index, and the counter of issued calls advances by one. -/
def apiCall (env : Env) (_systemPrompt _userPrompt : String) (n : Nat) :
    CallResult × Nat :=
  (env.oracle n, n + 1)

/-! ### Prompt templates (verbatim from `main.py`) -/

/-- System prompt of the research stage (main.py lines 51-59). -/
def researchSystemPrompt : String :=
  "You are a senior research analyst with expertise in gathering comprehensive information. \n                        Your research should include:\n                        - Current state and background information\n                        - Key challenges and opportunities\n                        - Statistical data and trends\n                        - Best practices and solutions\n                        - Expert opinions and case studies\n                        - Recent developments and innovations\n                        Provide detailed, well-structured research findings."

/-- User prompt of the research stage (main.py line 63). -/
def researchUserPrompt (topic : String) : String :=
  "Conduct comprehensive research on: " ++ topic

/-- System prompt of the analysis stage (main.py lines 84-91). -/
def analysisSystemPrompt : String :=
  "You are a data analyst specializing in extracting insights from research data. \n                        Your analysis should include:\n                        - Key patterns and trends identification\n                        - Critical insights and implications\n                        - Comparative analysis of different approaches\n                        - Risk assessment and opportunities\n                        - Data-driven recommendations\n                        Provide actionable insights that will strengthen the report."

/-- User prompt of the analysis stage (main.py line 95). -/
def analysisUserPrompt (topic research_data : String) : String :=
  "Analyze this research data about " ++ topic ++ ":\n\n" ++ research_data

/-- `charts_instruction` (main.py line 118). -/
def chartsInstruction (include_charts : Bool) : String :=
  if include_charts then
    "Include suggestions for data visualizations and charts where appropriate."
  else ""

/-- `sources_instruction` (main.py line 119). -/
def sourcesInstruction (include_sources : Bool) : String :=
  if include_sources then
    "Include proper citations and references throughout the report."
  else ""

/-- System prompt of the generation stage (main.py lines 126-143). -/
def generationSystemPrompt (report_type : String) (length : Nat)
    (include_charts include_sources : Bool) : String :=
  "You are a professional report writer creating a " ++ report_type ++
  " report \n                        of approximately " ++ toString length ++
  " pages. Create a comprehensive, well-structured report with:\n                        \n                        1. Executive Summary\n                        2. Introduction and Background\n                        3. Current State Analysis\n                        4. Key Challenges and Pain Points\n                        5. Opportunities and Solutions\n                        6. Detailed Recommendations\n                        7. Implementation Strategy\n                        8. Risk Assessment\n                        9. Expected Outcomes\n                        10. Conclusion and Next Steps\n                        \n                        " ++
  chartsInstruction include_charts ++ "\n                        " ++
  sourcesInstruction include_sources ++
  "\n                        \n                        Use professional formatting, clear headings, and actionable content."

/-- User prompt of the generation stage (main.py lines 147-155). -/
def generationUserPrompt (report_type topic research_data analysis_data : String)
    (length : Nat) : String :=
  "Create a comprehensive " ++ report_type ++ " report on: " ++ topic ++
  "\n                        \n                        Research Findings:\n                        " ++
  research_data ++
  "\n                        \n                        Analysis Results:\n                        " ++
  analysis_data ++
  "\n                        \n                        Please create a " ++ toString length ++
  "-page professional report with clear structure and actionable recommendations."

/-- System prompt of the review stage (main.py lines 176-185). -/
def reviewSystemPrompt : String :=
  "You are a quality assurance specialist reviewing reports. \n                        Improve the report by:\n                        - Ensuring accuracy and completeness\n                        - Improving clarity and readability\n                        - Checking logical flow and structure\n                        - Verifying actionable recommendations\n                        - Enhancing professional presentation\n                        - Correcting any grammar or formatting issues\n                        \n                        Return the polished, final version of the report."

/-- User prompt of the review stage (main.py line 189). -/
def reviewUserPrompt (report_type report_content : String) : String :=
  "Review and improve this " ++ report_type ++ " report:\n\n" ++ report_content

/-- System prompt of the simple fallback call (main.py line 214). -/
def fallbackSystemPrompt (report_type : String) : String :=
  "Create a professional " ++ report_type ++
  " report with clear structure and recommendations."

/-- User prompt of the simple fallback call (main.py line 218). -/
def fallbackUserPrompt (topic : String) : String :=
  "Create a detailed report on: " ++ topic

/-- The static template at the end of `_create_fallback_report`
(main.py lines 232-337), with `now` standing for
`datetime.now().strftime(...)`. -/
def staticFallbackReport (report_type topic now : String) : String :=
  "\n# " ++ report_type ++ ": " ++ topic ++
  "\n\n**Generated on:** " ++ now ++
  "\n\n## Executive Summary\n\nThis report addresses \"" ++ topic ++
  "\" and provides analysis and recommendations for moving forward. Due to technical limitations, this is a simplified version of the requested report.\n\n## Introduction\n\nThe topic \"" ++ topic ++
  "\" represents an important area requiring careful analysis and strategic planning. This report aims to provide insights and actionable recommendations.\n\n## Current State Analysis\n\nThe current situation regarding \"" ++ topic ++
  "\" presents both opportunities and challenges that need to be addressed through comprehensive planning and execution.\n\n## Key Challenges\n\n1. **Resource Allocation**: Ensuring adequate resources for implementation\n2. **Stakeholder Engagement**: Securing buy-in from relevant stakeholders  \n3. **Technical Implementation**: Addressing technical requirements and constraints\n4. **Timeline Management**: Developing realistic implementation timelines\n\n## Opportunities\n\n1. **Strategic Advantage**: Potential competitive benefits through implementation\n2. **Process Optimization**: Opportunities to improve current processes\n3. **Innovation**: Implementing cutting-edge solutions and approaches\n4. **Value Creation**: Generating value for stakeholders\n\n## Recommendations\n\n### Immediate Actions (0-3 months)\n- Conduct detailed stakeholder analysis\n- Develop comprehensive implementation roadmap\n- Secure necessary resources and approvals\n- Launch pilot program or proof of concept\n\n### Medium-term Strategy (3-12 months)\n- Execute implementation plan in phases\n- Monitor progress and adjust approach\n- Gather feedback and iterate\n- Scale successful initiatives\n\n### Long-term Vision (12+ months)\n- Evaluate overall impact and success\n- Develop sustainability framework\n- Explore expansion opportunities\n- Document lessons learned\n\n## Implementation Strategy\n\n**Phase 1: Planning and Preparation**\n- Detailed planning and resource allocation\n- Stakeholder engagement and communication\n- Risk assessment and mitigation planning\n\n**Phase 2: Pilot Implementation**\n- Small-scale testing and validation\n- Feedback collection and process refinement\n- Technical and operational issue resolution\n\n**Phase 3: Full-scale Deployment**\n- Complete implementation rollout\n- Performance monitoring and optimization\n- Continuous improvement processes\n\n## Risk Assessment\n\n**Key Risks:**\n- Resource constraints and budget limitations\n- Technical implementation challenges\n- Stakeholder resistance or lack of buy-in\n- Timeline delays and scope creep\n\n**Mitigation Strategies:**\n- Comprehensive planning and contingency preparation\n- Regular stakeholder communication and engagement\n- Phased implementation approach\n- Continuous monitoring and adjustment\n\n## Expected Outcomes\n\nSuccessful implementation should result in:\n- Improved operational efficiency\n- Enhanced stakeholder satisfaction\n- Reduced risks and improved outcomes\n- Sustainable long-term benefits\n\n## Conclusion\n\nThe analysis of \"" ++ topic ++
  "\" reveals significant opportunities for improvement and growth. With proper planning, resource allocation, and stakeholder engagement, the recommended strategies can be successfully implemented.\n\n## Next Steps\n\n1. Review and approve recommendations\n2. Develop detailed implementation plan\n3. Secure resources and stakeholder buy-in\n4. Begin phased implementation\n5. Monitor progress and adjust as needed\n\n---\n\n*This report was generated using AI technology. For additional details or clarifications, please contact the report administrator.*\n        "

/-! ### Pipeline stages (verbatim structure of `main.py`) -/

/-- `ReportCreator._conduct_research` (main.py lines 43-74): one call; on
success, `content or "Research data for: {topic}"`; on exception, the
explicit marker string. -/
def conduct_research (env : Env) (topic : String) (n : Nat) : String × Nat :=
  match apiCall env researchSystemPrompt (researchUserPrompt topic) n with
  | (.ok content, m) => (pyOrElse content ("Research data for: " ++ topic), m)
  | (.err, m) => ("Research phase encountered an error for topic: " ++ topic, m)

/-- `ReportCreator._analyze_data` (main.py lines 76-106). -/
def analyze_data (env : Env) (research_data topic : String) (n : Nat) :
    String × Nat :=
  match apiCall env analysisSystemPrompt (analysisUserPrompt topic research_data) n with
  | (.ok content, m) => (pyOrElse content ("Analysis data for: " ++ topic), m)
  | (.err, m) => ("Analysis phase encountered an error for topic: " ++ topic, m)

/-- `ReportCreator._create_fallback_report` (main.py lines 202-337):
`config['topic']` and `config['report_type']` are read outside any `try`
(lines 204-205), so a missing key raises `KeyError` to the caller; then one
simple completion call is attempted inside a `try`, and its content is
returned when truthy; otherwise the static template is returned. -/
def create_fallback_report (env : Env) (cfg : Config) (n : Nat) :
    Except (PyErr × Nat) (String × Nat) :=
  match cfg.topic with
  | none => .error (.keyError "topic", n)
  | some topic =>
  match cfg.report_type with
  | none => .error (.keyError "report_type", n)
  | some report_type =>
  match apiCall env (fallbackSystemPrompt report_type) (fallbackUserPrompt topic) n with
  | (.ok content, m) =>
    match content with
    | some s =>
      if s = "" then .ok (staticFallbackReport report_type topic env.now, m)
      else .ok (s, m)
    | none => .ok (staticFallbackReport report_type topic env.now, m)
  | (.err, m) => .ok (staticFallbackReport report_type topic env.now, m)

/-- `ReportCreator._generate_report` (main.py lines 108-166): the `try` body
reads `topic`, `report_type`, `length` (KeyError on a missing key), issues the
generation call, and on falsy content returns `_create_fallback_report`
(line 162, still inside the `try`); the `except` handler catches anything the
body raised and calls `_create_fallback_report`, whose own exceptions
propagate to the caller. -/
def generate_report (env : Env) (cfg : Config)
    (research_data analysis_data : String) (n : Nat) :
    Except (PyErr × Nat) (String × Nat) :=
  let body : Except (PyErr × Nat) (String × Nat) :=
    match cfg.topic with
    | none => .error (.keyError "topic", n)
    | some topic =>
    match cfg.report_type with
    | none => .error (.keyError "report_type", n)
    | some report_type =>
    match cfg.length with
    | none => .error (.keyError "length", n)
    | some length =>
    let include_charts := cfg.include_charts.getD false
    let include_sources := cfg.include_sources.getD false
    match apiCall env
        (generationSystemPrompt report_type length include_charts include_sources)
        (generationUserPrompt report_type topic research_data analysis_data length)
        n with
    | (.ok content, m) =>
      match content with
      | some s =>
        if s = "" then create_fallback_report env cfg m else .ok (s, m)
      | none => create_fallback_report env cfg m
    | (.err, m) => create_fallback_report env cfg m
  match body with
  | .ok r => .ok r
  | .error (_, m) => create_fallback_report env cfg m

/-- `ReportCreator._review_report` (main.py lines 168-200): the user message
reads `config['report_type']` inside the `try` (line 189), so a missing key
is caught before any call is issued and the original content is returned; a
call failure or falsy content likewise returns the original content. -/
def review_report (env : Env) (report_content : String) (cfg : Config)
    (n : Nat) : String × Nat :=
  match cfg.report_type with
  | none => (report_content, n)
  | some report_type =>
  match apiCall env reviewSystemPrompt
      (reviewUserPrompt report_type report_content) n with
  | (.ok content, m) => (pyOrElse content report_content, m)
  | (.err, m) => (report_content, m)

/-- `ReportCreator.create_report` (main.py lines 19-41): the `try` body logs
`config['topic']` (line 22, so a missing topic raises inside the `try`), runs
the four stages, and returns the review output; the top-level `except`
catches anything the body raised and returns `_create_fallback_report`, whose
own exceptions propagate to the caller. -/
def create_report (env : Env) (cfg : Config) (n : Nat) :
    Except (PyErr × Nat) (String × Nat) :=
  let body : Except (PyErr × Nat) (String × Nat) :=
    match cfg.topic with
    | none => .error (.keyError "topic", n)
    | some topic =>
    let rd := conduct_research env topic n
    let ad := analyze_data env rd.1 topic rd.2
    match generate_report env cfg rd.1 ad.1 ad.2 with
    | .error e => .error e
    | .ok (report_content, m) => .ok (review_report env report_content cfg m)
  match body with
  | .ok r => .ok r
  | .error (_, m) => create_fallback_report env cfg m

/-- `ReportCreator.__init__` (main.py lines 11-17): a falsy `api_key`
(`None` or `""`) raises `ValueError`; otherwise the client is constructed.
No completion call is issued either way; the `Nat` component counts the
completion calls issued during construction (always `0`). -/
structure ReportCreator where
  api_key : String
  model : String
  deriving Repr, DecidableEq

def reportCreator_init (api_key : Option String) :
    Except (PyErr × Nat) (ReportCreator × Nat) :=
  match api_key with
  | none => .error (.valueError, 0)
  | some k =>
    if k = "" then .error (.valueError, 0)
    else .ok ({ api_key := k, model := "gpt-4o-mini" }, 0)

/-! ### API layer (`src/api.py`) -/

/-- The `report_type` values accepted by the `ReportRequest` pattern
(api.py lines 57-61). -/
def reportTypes : List String :=
  ["Comprehensive Analysis", "Strategic Report", "Market Analysis",
   "Technical Report", "Business Plan", "Research Report"]

/-- A config that passes the `ReportRequest` validation of api.py: topic
present with length 5-500 (and not whitespace-only, approximated here by
non-emptiness after the length bound), `report_type` from the fixed pattern,
`length` between 1 and 20. -/
def validRequest (cfg : Config) : Bool :=
  match cfg.topic, cfg.report_type, cfg.length with
  | some t, some rt, some l =>
    5 ≤ t.length && t.length ≤ 500 && reportTypes.contains rt &&
    1 ≤ l && l ≤ 20
  | _, _, _ => false

/-- `fastapi.HTTPException` as raised by the dependency functions. -/
structure HTTPException where
  status_code : Nat
  deriving Repr, DecidableEq

/-- `ReportCrew.__init__` (crew.py lines 257-258) declares no parameter
besides `self`. -/
def reportCrew_init_paramNames : List String := []

/-- Python keyword-argument binding: calling a function whose keyword
parameters are `params` with keyword arguments named `kwargs` raises
`TypeError` when some keyword does not match a declared parameter. -/
def bindKwargs (params kwargs : List String) : Except PyErr Unit :=
  if kwargs.all (fun k => params.contains k) then .ok () else .error .typeError

/-- The constructor call `ReportCrew(api_key=settings.openai_api_key)`
issued by `get_crew_report_creator` (api.py line 178): keyword binding
against `ReportCrew.__init__`. -/
def callReportCrewInit (kwargs : List String) : Except PyErr Unit :=
  bindKwargs reportCrew_init_paramNames kwargs

/-- `get_crew_report_creator` (api.py lines 175-184): constructs
`ReportCrew(api_key=...)` inside a `try`; any exception becomes an
`HTTPException` with status 500.  The `Unit` payload stands for a
successfully constructed `ReportCrew` (never reached, see `C9`). -/
def get_crew_report_creator (_openai_api_key : Option String) :
    Except HTTPException Unit :=
  match callReportCrewInit ["api_key"] with
  | .ok r => .ok r
  | .error _ => .error { status_code := 500 }

end CreateReport

namespace Crew

open CreateReport (PyErr Config)

/-! ### Crew variant (`src/src/create_report/crew.py`)

The YAML configuration files (`agents.yaml`, `tasks.yaml`) are not part of
the sources, so the loaded `agents_config` / `tasks_config` dictionaries are
universally quantified association lists, and the set of available tool names
(`_setup_tools`, which depends on the external tool framework) is a
parameter of the manager state. -/

/-- One entry of `agents_config`: the keys `create_agent` reads, each
optional (`config.get(k, d)`). -/
structure AgentCfg where
  role : Option String
  goal : Option String
  backstory : Option String
  tools : Option (List String)
  verbose : Option Bool
  allow_delegation : Option Bool
  max_execution_time : Option Nat

/-- One entry of `tasks_config`: the keys `create_task` and
`_format_task_config` read. -/
structure TaskCfg where
  description : Option String
  expected_output : Option String
  agent : Option String
  dependencies : Option (List String)

/-- A `crewai.Agent` as constructed by crew.py; `max_execution_time` is
`none` when the constructor was called without that argument
(`_create_fallback_agent` omits it). -/
structure Agent where
  role : String
  goal : String
  backstory : String
  tools : List String
  verbose : Bool
  allow_delegation : Bool
  max_execution_time : Option Nat
  deriving Repr, DecidableEq

/-- A `crewai.Task` as constructed by crew.py.  `slot` records the
`task_name` of the loop iteration that built the task (the loop variable of
`create_crew`, not a field of the Python object); `dependencies` records the
names under which the resolved dependency tasks were registered in
`self.tasks`. -/
structure CrewTask where
  slot : String
  description : String
  expected_output : String
  agentName : String
  dependencies : List String
  deriving Repr, DecidableEq

/-- State of a `CrewManager` after `__init__`: the two loaded configs, the
names of the tools available in `self.tools`, and the `self.agents` /
`self.tasks` registries. -/
structure CrewManager where
  agents_config : List (String × AgentCfg)
  tasks_config : List (String × TaskCfg)
  tools : List String
  agents : List (String × Agent)
  tasks : List (String × CrewTask)

/-- Python `dict` assignment `d[k] = v` on an association list: replace in
place when the key exists (preserving insertion order), else append. -/
def dictInsert (k : String) (v : α) : List (String × α) → List (String × α)
  | [] => [(k, v)]
  | (k', v') :: rest =>
    if k' = k then (k, v) :: rest else (k', v') :: dictInsert k v rest

/-- `CrewManager.create_agent` (crew.py lines 61-99), called without kwargs
as in `create_crew`: raise `ValueError` when the agent is not configured,
else build the agent (tools filtered by availability) and register it in
`self.agents`. -/
def create_agent (m : CrewManager) (agent_name : String) :
    Except PyErr (Agent × CrewManager) :=
  match m.agents_config.lookup agent_name with
  | none => .error .valueError
  | some cfg =>
    let agent_tools := (cfg.tools.getD []).filter (fun t => m.tools.contains t)
    let agent : Agent :=
      { role := cfg.role.getD ""
        goal := cfg.goal.getD ""
        backstory := cfg.backstory.getD ""
        tools := agent_tools
        verbose := cfg.verbose.getD false
        allow_delegation := cfg.allow_delegation.getD false
        max_execution_time := some (cfg.max_execution_time.getD 300) }
    .ok (agent, { m with agents := dictInsert agent_name agent m.agents })

/-- `CrewManager._create_fallback_agent` (crew.py lines 232-240). -/
def create_fallback_agent (agent_name : String) : Agent :=
  { role := "AI Assistant"
    goal := "Assist with " ++ agent_name ++ " tasks"
    backstory := "You are an AI assistant specializing in " ++ agent_name ++ " tasks."
    tools := []
    verbose := true
    allow_delegation := false
    max_execution_time := none }

/-- The opening brace character, written via its code point. -/
def openBrace : Char := Char.ofNat 123

/-- The closing brace character, written via its code point. -/
def closeBrace : Char := Char.ofNat 125

/-- Core of Python `str.format(**kwargs)` for the keyword-substitution subset
used by the task templates: `none` models the `KeyError`/`ValueError` raised
on an unknown field name or a stray brace; doubled braces are literal.  The
first argument is `none` outside a replacement field and `some acc` while
collecting a (reversed) field name. -/
def pyFormatAux (vals : List (String × String)) :
    Option (List Char) → List Char → Option (List Char)
  | none, [] => some []
  | some _, [] => none
  | none, c :: rest =>
    if c = openBrace then
      match rest with
      | c2 :: rest2 =>
        if c2 = openBrace then
          (pyFormatAux vals none rest2).map (fun t => openBrace :: t)
        else pyFormatAux vals (some []) (c2 :: rest2)
      | [] => none
    else if c = closeBrace then
      match rest with
      | c2 :: rest2 =>
        if c2 = closeBrace then
          (pyFormatAux vals none rest2).map (fun t => closeBrace :: t)
        else none
      | [] => none
    else (pyFormatAux vals none rest).map (fun t => c :: t)
  | some acc, c :: rest =>
    if c = closeBrace then
      match vals.lookup (String.mk acc.reverse) with
      | none => none
      | some v => (pyFormatAux vals none rest).map (fun t => v.data ++ t)
    else if c = openBrace then none
    else pyFormatAux vals (some (c :: acc)) rest
termination_by _mode cs => cs.length

/-- Python `template.format(**vals)` (keyword-substitution subset). -/
def pyFormat (template : String) (vals : List (String × String)) :
    Option String :=
  (pyFormatAux vals none template.data).map (fun cs => String.mk cs)

/-- `CrewManager._get_sources_instruction` (crew.py lines 220-224). -/
def get_sources_instruction (config : Config) : String :=
  if config.include_sources.getD false then
    "Include proper citations and references to all sources used in the research."
  else ""

/-- `CrewManager._get_charts_instruction` (crew.py lines 226-230). -/
def get_charts_instruction (config : Config) : String :=
  if config.include_charts.getD false then
    "Include suggestions for data visualizations and charts where appropriate."
  else ""

/-- The keyword arguments passed to `description.format(...)` in
`_format_task_config` (crew.py lines 204-210). -/
def descFormatVals (topic : String) (config : Config) :
    List (String × String) :=
  [("topic", topic),
   ("report_type", config.report_type.getD "Comprehensive Analysis"),
   ("length", toString (config.length.getD 5)),
   ("include_sources_instruction", get_sources_instruction config),
   ("include_charts_instruction", get_charts_instruction config)]

/-- The keyword arguments passed to `expected_output.format(...)` in
`_format_task_config` (crew.py lines 213-216). -/
def outFormatVals (config : Config) : List (String × String) :=
  [("report_type", config.report_type.getD "Comprehensive Analysis"),
   ("length", toString (config.length.getD 5))]

/-- `CrewManager._format_task_config` (crew.py lines 195-218): returns the
`task_kwargs` overrides (formatted description and expected output); a
formatting failure raises (`KeyError`/`ValueError`) to the caller. -/
def format_task_config (m : CrewManager) (task_name topic : String)
    (config : Config) : Except PyErr (Option String × Option String) :=
  match m.tasks_config.lookup task_name with
  | none => .ok (none, none)
  | some original =>
    let descResult : Except PyErr (Option String) :=
      match original.description with
      | none => .ok none
      | some tmpl =>
        match pyFormat tmpl (descFormatVals topic config) with
        | none => .error (.keyError "format")
        | some s => .ok (some s)
    match descResult with
    | .error e => .error e
    | .ok descOverride =>
      match original.expected_output with
      | none => .ok (descOverride, none)
      | some tmpl =>
        match pyFormat tmpl (outFormatVals config) with
        | none => .error (.keyError "format")
        | some s => .ok (descOverride, some s)

/-- `CrewManager.create_task` (crew.py lines 101-142), with `kwargs` as
produced by `_format_task_config`: raise `ValueError` when the task is not
configured or its assigned agent is absent from `agents`; dependencies are
resolved against `self.tasks` (missing ones only logged); the created task is
registered in `self.tasks`. -/
def create_task (m : CrewManager) (task_name : String)
    (agents : List (String × Agent))
    (kwDescription kwExpected : Option String) :
    Except PyErr (CrewTask × CrewManager) :=
  match m.tasks_config.lookup task_name with
  | none => .error .valueError
  | some cfg0 =>
    let description := match kwDescription with
      | some d => some d
      | none => cfg0.description
    let expected_output := match kwExpected with
      | some e => some e
      | none => cfg0.expected_output
    let agent_name := cfg0.agent.getD ""
    match agents.lookup agent_name with
    | none => .error .valueError
    | some _ =>
      let deps := (cfg0.dependencies.getD []).filter
        (fun dep => (m.tasks.lookup dep).isSome)
      let task : CrewTask :=
        { slot := task_name
          description := description.getD ""
          expected_output := expected_output.getD ""
          agentName := agent_name
          dependencies := deps }
      .ok (task, { m with tasks := dictInsert task_name task m.tasks })

/-- `CrewManager._create_fallback_task` (crew.py lines 242-250):
`list(agents.values())[0]` is the first agent in insertion order (in
`create_crew` the dictionary always holds the four agents, so it is never
empty; the empty case is mapped to the empty name). -/
def create_fallback_task (task_name : String)
    (agents : List (String × Agent)) (topic : String) : CrewTask :=
  { slot := task_name
    description := "Work on " ++ task_name ++ " for the topic: " ++ topic
    expected_output := "Results for " ++ task_name
    agentName := (agents.head?.map Prod.fst).getD ""
    dependencies := [] }

/-- The fixed agent list of `create_crew` (crew.py line 157). -/
def agent_names : List String := ["researcher", "analyst", "writer", "reviewer"]

/-- The fixed task list of `create_crew` (crew.py line 169). -/
def task_names : List String :=
  ["research_task", "analysis_task", "writing_task", "review_task"]

/-- The agent-creation loop of `create_crew` (crew.py lines 156-165):
each configured agent, or the fallback agent when creation raises. -/
def createAgentsLoop (m : CrewManager) (agents : List (String × Agent)) :
    List String → List (String × Agent) × CrewManager
  | [] => (agents, m)
  | name :: rest =>
    match create_agent m name with
    | .ok (a, m') => createAgentsLoop m' (dictInsert name a agents) rest
    | .error _ =>
      createAgentsLoop m (dictInsert name (create_fallback_agent name) agents) rest

/-- The task-creation loop of `create_crew` (crew.py lines 168-181): format
the task config and create the task; when either raises, append the fallback
task instead. -/
def createTasksLoop (m : CrewManager) (topic : String) (config : Config)
    (agents : List (String × Agent)) (tasks : List CrewTask) :
    List String → List CrewTask × CrewManager
  | [] => (tasks, m)
  | name :: rest =>
    match (format_task_config m name topic config).bind
        (fun kw => create_task m name agents kw.1 kw.2) with
    | .ok (t, m') => createTasksLoop m' topic config agents (tasks ++ [t]) rest
    | .error _ =>
      createTasksLoop m topic config agents
        (tasks ++ [create_fallback_task name agents topic]) rest

/-- A `crewai.Crew` as constructed by `create_crew` (crew.py lines 184-191);
`Process.sequential` is recorded as `sequentialProcess := true`. -/
structure CrewObj where
  agents : List Agent
  tasks : List CrewTask
  verbose : Bool
  sequentialProcess : Bool
  memory : Bool
  max_execution_time : Nat

/-- `CrewManager.create_crew` (crew.py lines 144-193). -/
def create_crew (m : CrewManager) (topic : String) (report_config : Config) :
    CrewObj × CrewManager :=
  let am := createAgentsLoop m [] agent_names
  let tm := createTasksLoop am.2 topic report_config am.1 [] task_names
  ({ agents := am.1.map Prod.snd
     tasks := tm.1
     verbose := true
     sequentialProcess := true
     memory := true
     max_execution_time := 1800 }, tm.2)

end Crew

namespace CreateReport

/-! ### Helper lemmas about the pipeline -/

/-- A string with a non-empty left part is non-empty. -/
theorem append_ne_empty {x : String} (y : String) (hx : x ≠ "") :
    x ++ y ≠ "" := by
  intro h
  apply hx
  apply String.ext
  have hd : x.data ++ y.data = [] := by
    have hc := congrArg String.data h
    simpa [String.data_append] using hc
  simpa using (List.append_eq_nil.mp hd).1

/-- The static fallback template is never the empty string. -/
theorem staticFallbackReport_ne_empty (rt t now : String) :
    staticFallbackReport rt t now ≠ "" := by
  unfold staticFallbackReport
  repeat' apply append_ne_empty
  decide

/-- `pyOrElse` with a non-empty default is non-empty. -/
theorem pyOrElse_ne_empty (c : Option String) {d : String} (hd : d ≠ "") :
    pyOrElse c d ≠ "" := by
  cases c with
  | none => exact hd
  | some s =>
    by_cases hs : s = ""
    · simp only [pyOrElse, if_pos hs]; exact hd
    · simp only [pyOrElse, if_neg hs]; exact hs

/-- With `topic` and `report_type` present, `_create_fallback_report` always
returns (no exception), issues exactly one completion call, and its text is
non-empty. -/
theorem create_fallback_report_ok (env : Env) (cfg : Config) (n : Nat)
    {t rt : String} (ht : cfg.topic = some t)
    (hrt : cfg.report_type = some rt) :
    ∃ s, create_fallback_report env cfg n = .ok (s, n + 1) ∧ s ≠ "" := by
  unfold create_fallback_report apiCall
  rw [ht, hrt]
  cases h : env.oracle n with
  | err => exact ⟨_, rfl, staticFallbackReport_ne_empty rt t env.now⟩
  | ok content =>
    cases content with
    | none => exact ⟨_, rfl, staticFallbackReport_ne_empty rt t env.now⟩
    | some s =>
      by_cases hs : s = ""
      · exact ⟨_, by simp [hs], staticFallbackReport_ne_empty rt t env.now⟩
      · exact ⟨s, by simp [hs], hs⟩

/-- With `topic` and `report_type` present, `_generate_report` always returns
non-empty text and raises no exception. -/
theorem generate_report_ok (env : Env) (cfg : Config)
    (research_data analysis_data : String) (n : Nat)
    {t rt : String} (ht : cfg.topic = some t)
    (hrt : cfg.report_type = some rt) :
    ∃ s m, generate_report env cfg research_data analysis_data n = .ok (s, m) ∧
      s ≠ "" := by
  unfold generate_report apiCall
  rw [ht, hrt]
  cases hl : cfg.length with
  | none =>
    obtain ⟨s, hfb, hs⟩ := create_fallback_report_ok env cfg n ht hrt
    exact ⟨s, n + 1, by simp [hfb], hs⟩
  | some l =>
    cases ho : env.oracle n with
    | err =>
      obtain ⟨s, hfb, hs⟩ := create_fallback_report_ok env cfg (n + 1) ht hrt
      exact ⟨s, n + 1 + 1, by simp [hfb], hs⟩
    | ok content =>
      cases content with
      | none =>
        obtain ⟨s, hfb, hs⟩ := create_fallback_report_ok env cfg (n + 1) ht hrt
        exact ⟨s, n + 1 + 1, by simp [hfb], hs⟩
      | some s =>
        by_cases hs : s = ""
        · obtain ⟨s', hfb, hs'⟩ := create_fallback_report_ok env cfg (n + 1) ht hrt
          exact ⟨s', n + 1 + 1, by simp [hs, hfb], hs'⟩
        · exact ⟨s, n + 1, by simp [hs], hs⟩

/-- `_review_report` preserves non-emptiness of the report text. -/
theorem review_report_ne_empty (env : Env) (rc : String) (cfg : Config)
    (n : Nat) (hrc : rc ≠ "") : (review_report env rc cfg n).1 ≠ "" := by
  unfold review_report apiCall
  cases cfg.report_type with
  | none => exact hrc
  | some rt =>
    cases env.oracle n with
    | err => exact hrc
    | ok content => exact pyOrElse_ne_empty content hrc

/-- With `topic` and `report_type` present, `create_report` returns non-empty
text and raises no exception, for every oracle. -/
theorem create_report_ok (env : Env) (cfg : Config) (n : Nat)
    {t rt : String} (ht : cfg.topic = some t)
    (hrt : cfg.report_type = some rt) :
    ∃ s m, create_report env cfg n = .ok (s, m) ∧ s ≠ "" := by
  obtain ⟨s, m, hg, hs⟩ :=
    generate_report_ok env cfg (conduct_research env t n).1
      (analyze_data env (conduct_research env t n).1 t
        (conduct_research env t n).2).1
      (analyze_data env (conduct_research env t n).1 t
        (conduct_research env t n).2).2 ht hrt
  refine ⟨(review_report env s cfg m).1, (review_report env s cfg m).2, ?_,
    review_report_ne_empty env s cfg m hs⟩
  unfold create_report
  simp only [ht, hg]

/-! ### Concrete runs used by witnesses and counterexamples -/

/-- A valid config (the scenario of spec §8). -/
def cfgW : Config :=
  { topic := some "Impact of AI on healthcare industry"
    report_type := some "Comprehensive Analysis"
    length := some 5
    include_charts := some true
    include_sources := some true }

/-- An environment in which every completion call raises. -/
def envAllErr1 : Env :=
  { oracle := fun _ => .err, now := "2025-01-01 at 00:00:00" }

/-- The all-failing environment at a later wall-clock time. -/
def envAllErr2 : Env :=
  { oracle := fun _ => .err, now := "2025-01-02 at 00:00:00" }

/-- An environment in which every completion call returns content "X". -/
def envAllOkX : Env :=
  { oracle := fun _ => .ok (some "X"), now := "2025-06-01 at 12:00:00" }

/-- Stages 1-3 succeed with "R", "A", "G"; every later call raises. -/
def envRAGThenErr : Env :=
  { oracle := fun k =>
      match k with
      | 0 => .ok (some "R")
      | 1 => .ok (some "A")
      | 2 => .ok (some "G")
      | _ => .err
    now := "2025-06-01 at 12:00:00" }

/-- Generation call (index 2) raises; the simple fallback call (index 3)
returns model text. -/
def envGenFailFbOk : Env :=
  { oracle := fun k =>
      match k with
      | 2 => .err
      | _ => .ok (some "Model-written fallback text")
    now := "2025-06-01 at 12:00:00" }

/-- Generation call (index 2) and the simple fallback call (index 3) both
raise. -/
def envGenFailFbErr : Env :=
  { oracle := fun k =>
      match k with
      | 2 => .err
      | 3 => .err
      | _ => .ok (some "X")
    now := "2025-06-01 at 12:00:00" }

/-- A config with `topic` present but no `report_type` key. -/
def cfgNoReportType : Config :=
  { topic := some "Impact of AI on healthcare industry"
    report_type := none
    length := some 5
    include_charts := none
    include_sources := none }

/-! ### Claim theorems -/

/-- C1: for every config containing the required fields (`topic` and
`report_type`), `create_report` never raises to its caller: for every oracle
(any pattern of per-stage CompletionClient failures) and any call counter, it
returns a string. -/
theorem create_report_never_raises_to_caller (env : Env) (cfg : Config)
    (n : Nat) {t rt : String} (ht : cfg.topic = some t)
    (hrt : cfg.report_type = some rt) :
    ∃ s m, create_report env cfg n = .ok (s, m) := by
  obtain ⟨s, m, h, _⟩ := create_report_ok env cfg n ht hrt
  exact ⟨s, m, h⟩

/-- Witness for C1 at a concrete config and the all-failing oracle. -/
theorem create_report_never_raises_to_caller_witness :
    cfgW.topic = some "Impact of AI on healthcare industry" ∧
    cfgW.report_type = some "Comprehensive Analysis" ∧
    ∃ s m, create_report envAllErr1 cfgW 0 = .ok (s, m) :=
  ⟨rfl, rfl, create_report_never_raises_to_caller envAllErr1 cfgW 0 rfl rfl⟩

/-- C2 (amended): `_create_fallback_report`, given `topic` and `report_type`,
never raises and issues exactly one completion call (counter `n + 1`); its
text is non-empty, but it is not a pure template fill: the output depends on
that call's outcome and on the current timestamp. -/
theorem fallback_builder_single_call_total (env : Env) (cfg : Config)
    (n : Nat) {t rt : String} (ht : cfg.topic = some t)
    (hrt : cfg.report_type = some rt) :
    ∃ s, create_fallback_report env cfg n = .ok (s, n + 1) ∧ s ≠ "" :=
  create_fallback_report_ok env cfg n ht hrt

/-- Witness for C2 (amended) at a concrete config and oracle. -/
theorem fallback_builder_single_call_total_witness :
    cfgW.topic = some "Impact of AI on healthcare industry" ∧
    cfgW.report_type = some "Comprehensive Analysis" ∧
    ∃ s, create_fallback_report envAllErr1 cfgW 0 = .ok (s, 1) ∧ s ≠ "" :=
  ⟨rfl, rfl, fallback_builder_single_call_total envAllErr1 cfgW 0 rfl rfl⟩

/-- Counterexample to C2 as stated: `_create_fallback_report` issues a
completion call (the counter advances from 0 to 1), and two invocations with
the same `topic` and `report_type` return different text when the timestamp
differs, so it is not a deterministic call-free template fill. -/
theorem fallback_builder_not_pure_counterexample :
    create_fallback_report envAllErr1 cfgW 0 =
      .ok (staticFallbackReport "Comprehensive Analysis"
        "Impact of AI on healthcare industry" "2025-01-01 at 00:00:00", 1) ∧
    create_fallback_report envAllErr2 cfgW 0 =
      .ok (staticFallbackReport "Comprehensive Analysis"
        "Impact of AI on healthcare industry" "2025-01-02 at 00:00:00", 1) ∧
    staticFallbackReport "Comprehensive Analysis"
        "Impact of AI on healthcare industry" "2025-01-01 at 00:00:00" ≠
      staticFallbackReport "Comprehensive Analysis"
        "Impact of AI on healthcare industry" "2025-01-02 at 00:00:00" :=
  ⟨rfl, rfl, by decide⟩

/-- C3: if the Research, Analysis and Generation calls succeed (with
non-empty content `r`, `a`, `g`) and the Review call raises, `create_report`
returns the Generation-stage output `g` verbatim. -/
theorem review_failure_returns_generation_output (env : Env) (cfg : Config)
    (n : Nat) (t rt : String) (l : Nat) (r a g : String)
    (ht : cfg.topic = some t) (hrt : cfg.report_type = some rt)
    (hl : cfg.length = some l)
    (h0 : env.oracle n = .ok (some r)) (hr : r ≠ "")
    (h1 : env.oracle (n + 1) = .ok (some a)) (ha : a ≠ "")
    (h2 : env.oracle (n + 2) = .ok (some g)) (hg : g ≠ "")
    (h3 : env.oracle (n + 3) = .err) :
    create_report env cfg n = .ok (g, n + 4) := by
  have h2' : env.oracle (n + 1 + 1) = CallResult.ok (some g) := h2
  have h3' : env.oracle (n + 1 + 1 + 1) = CallResult.err := h3
  unfold create_report conduct_research analyze_data generate_report
    review_report apiCall pyOrElse
  simp only [ht, hrt, hl, h0, h1, h2', h3', if_neg hr, if_neg ha, if_neg hg]

/-- Witness for C3: stages stubbed to "R", "A", "G" and a failing review. -/
theorem review_failure_returns_generation_output_witness :
    create_report envRAGThenErr cfgW 0 = .ok ("G", 4) :=
  review_failure_returns_generation_output envRAGThenErr cfgW 0
    "Impact of AI on healthcare industry" "Comprehensive Analysis" 5
    "R" "A" "G" rfl rfl rfl rfl (by decide) rfl (by decide) rfl (by decide) rfl

/-- C4: if every completion call raises, `create_report` returns exactly the
static fallback text, i.e. the same text `_create_fallback_report` itself
produces for the same topic and report type. -/
theorem all_calls_fail_returns_fallback_text (env : Env) (cfg : Config)
    (n : Nat) (t rt : String) (ht : cfg.topic = some t)
    (hrt : cfg.report_type = some rt)
    (hfail : ∀ k, env.oracle k = .err) :
    (∃ m, create_report env cfg n =
      .ok (staticFallbackReport rt t env.now, m)) ∧
    ∃ m, create_fallback_report env cfg n =
      .ok (staticFallbackReport rt t env.now, m) := by
  have hfb : ∀ k, create_fallback_report env cfg k =
      .ok (staticFallbackReport rt t env.now, k + 1) := by
    intro k
    unfold create_fallback_report apiCall
    rw [ht, hrt, hfail k]
  refine ⟨?_, n + 1, hfb n⟩
  cases hl : cfg.length with
  | none =>
    refine ⟨n + 4, ?_⟩
    unfold create_report conduct_research analyze_data generate_report
      review_report apiCall
    simp only [ht, hrt, hl, hfail, hfb]
  | some l =>
    refine ⟨n + 5, ?_⟩
    unfold create_report conduct_research analyze_data generate_report
      review_report apiCall
    simp only [ht, hrt, hl, hfail, hfb]

/-- Witness for C4 with the all-failing oracle. -/
theorem all_calls_fail_returns_fallback_text_witness :
    (∃ m, create_report envAllErr1 cfgW 0 =
      .ok (staticFallbackReport "Comprehensive Analysis"
        "Impact of AI on healthcare industry" envAllErr1.now, m)) ∧
    ∃ m, create_fallback_report envAllErr1 cfgW 0 =
      .ok (staticFallbackReport "Comprehensive Analysis"
        "Impact of AI on healthcare industry" envAllErr1.now, m) :=
  all_calls_fail_returns_fallback_text envAllErr1 cfgW 0
    "Impact of AI on healthcare industry" "Comprehensive Analysis"
    rfl rfl (fun _ => rfl)

/-- C5: for every request passing the `ReportRequest` validation, a run
returns non-empty text, regardless of which stage calls succeed or fail. -/
theorem valid_request_nonempty_report (env : Env) (cfg : Config) (n : Nat)
    (hv : validRequest cfg = true) :
    ∃ s m, create_report env cfg n = .ok (s, m) ∧ s ≠ "" := by
  have h : ∃ t rt, cfg.topic = some t ∧ cfg.report_type = some rt := by
    unfold validRequest at hv
    rcases hct : cfg.topic with _ | t <;> rw [hct] at hv <;>
      rcases hcr : cfg.report_type with _ | rt <;> rw [hcr] at hv <;>
        rcases hcl : cfg.length with _ | l <;> rw [hcl] at hv <;>
          simp_all
  obtain ⟨t, rt, ht, hrt⟩ := h
  exact create_report_ok env cfg n ht hrt

/-- Witness for C5: the §8 scenario config is valid, and a run under the
all-failing oracle returns non-empty text. -/
theorem valid_request_nonempty_report_witness :
    validRequest cfgW = true ∧
    ∃ s m, create_report envAllErr1 cfgW 0 = .ok (s, m) ∧ s ≠ "" :=
  ⟨by decide, valid_request_nonempty_report envAllErr1 cfgW 0 (by decide)⟩

/-- C7: a falsy `api_key` (`None` or `""`) makes `ReportCreator.__init__`
raise `ValueError` with zero completion calls issued. -/
theorem missing_api_key_raises_before_any_call (api_key : Option String)
    (h : api_key = none ∨ api_key = some "") :
    reportCreator_init api_key = .error (.valueError, 0) := by
  rcases h with h | h <;> simp [reportCreator_init, h]

/-- Witness for C7 at `api_key = None`. -/
theorem missing_api_key_raises_before_any_call_witness :
    reportCreator_init none = .error (.valueError, 0) :=
  missing_api_key_raises_before_any_call none (Or.inl rfl)

/-- C10: `create_report` on a config with `topic` but without `report_type`
raises `KeyError` to its caller (the fallback path reads
`config['report_type']` outside any handler), even when every completion
call succeeds. -/
theorem missing_report_type_key_raises_keyerror :
    create_report envAllOkX cfgNoReportType 0 =
      .error (.keyError "report_type", 2) := rfl

/-! ### Stage accumulation and failure substitution (C6) -/

/-- `sub` occurs as a contiguous substring of `s`. -/
def containsStr (s sub : String) : Prop := ∃ pre post, s = pre ++ sub ++ post

/-- The research-stage output of a run starting at call counter `n`. -/
def researchOut (env : Env) (t : String) (n : Nat) : String :=
  (conduct_research env t n).1

/-- The analysis-stage output (fed the research output, as in
`create_report`). -/
def analysisOut (env : Env) (t : String) (n : Nat) : String :=
  (analyze_data env (researchOut env t n) t (conduct_research env t n).2).1

/-- The research stage always advances the call counter by one. -/
theorem conduct_research_counter (env : Env) (t : String) (n : Nat) :
    (conduct_research env t n).2 = n + 1 := by
  unfold conduct_research apiCall
  cases env.oracle n <;> rfl

/-- The accumulated-prompt and failure-substitution behaviour of one run:
each stage's user prompt contains the prior stages' outputs; a failed
Research or Analysis call substitutes its explicit marker string; a failed
Generation call still yields non-empty output for the Review stage without
raising. -/
def stageAccumulationInvariant (env : Env) (cfg : Config) (n : Nat)
    (t rt : String) (l : Nat) : Prop :=
  containsStr (analysisUserPrompt t (researchOut env t n))
    (researchOut env t n) ∧
  containsStr
    (generationUserPrompt rt t (researchOut env t n) (analysisOut env t n) l)
    (researchOut env t n) ∧
  containsStr
    (generationUserPrompt rt t (researchOut env t n) (analysisOut env t n) l)
    (analysisOut env t n) ∧
  (∀ rc, containsStr (reviewUserPrompt rt rc) rc) ∧
  (env.oracle n = CallResult.err →
    researchOut env t n =
      "Research phase encountered an error for topic: " ++ t) ∧
  (env.oracle (n + 1) = CallResult.err →
    analysisOut env t n =
      "Analysis phase encountered an error for topic: " ++ t) ∧
  (env.oracle (n + 2) = CallResult.err →
    ∃ s m, generate_report env cfg (researchOut env t n) (analysisOut env t n)
      (n + 2) = Except.ok (s, m) ∧ s ≠ "")

/-- C6 (amended): stage prompts accumulate all prior stage outputs; failed
Research/Analysis calls substitute their explicit marker strings; a failed
Generation call substitutes the fallback-report output, which is non-empty
(though not a fixed marker string, see the counterexample), so every
downstream stage receives well-formed input and no stage failure aborts the
pipeline. -/
theorem stage_accumulation_and_markers (env : Env) (cfg : Config) (n : Nat)
    (t rt : String) (l : Nat) (ht : cfg.topic = some t)
    (hrt : cfg.report_type = some rt) (hl : cfg.length = some l) :
    stageAccumulationInvariant env cfg n t rt l := by
  refine ⟨?_, ?_, ?_, ?_, ?_, ?_, ?_⟩
  · exact ⟨"Analyze this research data about " ++ t ++ ":\n\n", "",
      by simp [analysisUserPrompt, String.append_empty]⟩
  · refine ⟨"Create a comprehensive " ++ rt ++ " report on: " ++ t ++
      "\n                        \n                        Research Findings:\n                        ",
      "\n                        \n                        Analysis Results:\n                        " ++
      analysisOut env t n ++
      ("\n                        \n                        Please create a " ++
        toString l ++
        "-page professional report with clear structure and actionable recommendations."),
      ?_⟩
    simp [generationUserPrompt, String.append_assoc]
  · refine ⟨"Create a comprehensive " ++ rt ++ " report on: " ++ t ++
      "\n                        \n                        Research Findings:\n                        " ++
      researchOut env t n ++
      "\n                        \n                        Analysis Results:\n                        ",
      "\n                        \n                        Please create a " ++
        toString l ++
        "-page professional report with clear structure and actionable recommendations.",
      ?_⟩
    simp [generationUserPrompt, String.append_assoc]
  · intro rc
    exact ⟨"Review and improve this " ++ rt ++ " report:\n\n", "",
      by simp [reviewUserPrompt, String.append_empty]⟩
  · intro h
    simp [researchOut, conduct_research, apiCall, h]
  · intro h
    rw [analysisOut, conduct_research_counter]
    simp [analyze_data, apiCall, h]
  · intro h
    obtain ⟨s, hfb, hs⟩ := create_fallback_report_ok env cfg (n + 2 + 1) ht hrt
    refine ⟨s, n + 2 + 1 + 1, ?_, hs⟩
    unfold generate_report apiCall
    simp only [ht, hrt, hl, h, hfb]

/-- Witness for C6 (amended) at a concrete config under the all-failing
oracle. -/
theorem stage_accumulation_and_markers_witness :
    cfgW.topic = some "Impact of AI on healthcare industry" ∧
    cfgW.report_type = some "Comprehensive Analysis" ∧
    cfgW.length = some 5 ∧
    stageAccumulationInvariant envAllErr1 cfgW 0
      "Impact of AI on healthcare industry" "Comprehensive Analysis" 5 :=
  ⟨rfl, rfl, rfl,
    stage_accumulation_and_markers envAllErr1 cfgW 0
      "Impact of AI on healthcare industry" "Comprehensive Analysis" 5
      rfl rfl rfl⟩

/-- Counterexample to C6 as stated: the Generation stage does not substitute
a fixed failure-marker string.  Under two oracles that both fail the
generation call (index 2), the substituted output differs — it is the
fallback report, which may be model text from a secondary call or the static
template — so it is not an explicit marker determined by the stage and
topic. -/
theorem generation_failure_output_not_fixed_marker :
    envGenFailFbOk.oracle 2 = .err ∧
    envGenFailFbErr.oracle 2 = .err ∧
    generate_report envGenFailFbOk cfgW "R" "A" 2 =
      .ok ("Model-written fallback text", 4) ∧
    generate_report envGenFailFbErr cfgW "R" "A" 2 =
      .ok (staticFallbackReport "Comprehensive Analysis"
        "Impact of AI on healthcare industry" "2025-06-01 at 12:00:00", 4) ∧
    ("Model-written fallback text" : String) ≠
      staticFallbackReport "Comprehensive Analysis"
        "Impact of AI on healthcare industry" "2025-06-01 at 12:00:00" :=
  ⟨rfl, rfl, rfl, rfl, by decide⟩

/-- C9: `get_crew_report_creator` passes the keyword argument `api_key` to
`ReportCrew.__init__`, which declares no such parameter, so for every
configured key value the keyword binding raises `TypeError` and the
dependency returns HTTP 500 before any crew report can be generated. -/
theorem crew_dependency_construction_returns_500 (key : Option String) :
    callReportCrewInit ["api_key"] = .error PyErr.typeError ∧
    get_crew_report_creator key = .error { status_code := 500 } :=
  ⟨rfl, rfl⟩

end CreateReport

namespace Crew

/-- Every successfully created task was created for the loop's `task_name`. -/
theorem create_task_slot {m : CrewManager} {nm : String}
    {ag : List (String × Agent)} {d e : Option String} {t : CrewTask}
    {m' : CrewManager} (h : create_task m nm ag d e = .ok (t, m')) :
    t.slot = nm := by
  rcases hc : m.tasks_config.lookup nm with _ | cfg0
  · simp only [create_task, hc] at h
    cases h
  · simp only [create_task, hc] at h
    rcases ha : List.lookup (cfg0.agent.getD "") ag with _ | a
    · simp only [ha] at h
      cases h
    · simp only [ha, Except.ok.injEq, Prod.mk.injEq] at h
      obtain ⟨h1, -⟩ := h
      rw [← h1]

/-- The task-creation loop appends exactly one task per configured task
name, in the order of the name list, regardless of the configuration. -/
theorem createTasksLoop_slots (topic : String) (config : CreateReport.Config)
    (agents : List (String × Agent)) (names : List String) :
    ∀ (m : CrewManager) (tasks : List CrewTask),
      (createTasksLoop m topic config agents tasks names).1.map CrewTask.slot =
        tasks.map CrewTask.slot ++ names := by
  induction names with
  | nil => intro m tasks; simp [createTasksLoop]
  | cons name rest ih =>
    intro m tasks
    unfold createTasksLoop
    cases h : (format_task_config m name topic config).bind
        (fun kw => create_task m name agents kw.1 kw.2) with
    | ok tm =>
      obtain ⟨t, m'⟩ := tm
      have hslot : t.slot = name := by
        rcases hb : format_task_config m name topic config with e | kw
        · rw [hb] at h; simp [Except.bind] at h
        · rw [hb] at h
          simp only [Except.bind] at h
          exact create_task_slot h
      simp only [ih]
      simp [hslot]
    | error e =>
      simp only [ih]
      simp [create_fallback_task]

/-- C8: for every loaded configuration (any agent/task configs, any declared
dependency lists), `create_crew` builds the crew with the same fixed
sequential task order `research_task, analysis_task, writing_task,
review_task`, executed with `Process.sequential`. -/
theorem create_crew_fixed_task_order (m : CrewManager) (topic : String)
    (report_config : CreateReport.Config) :
    (create_crew m topic report_config).1.tasks.map CrewTask.slot =
      task_names ∧
    (create_crew m topic report_config).1.sequentialProcess = true := by
  constructor
  · unfold create_crew
    simp [createTasksLoop_slots]
  · rfl

end Crew
